import Mathlib

/-!
Verification of the file-persistence utilities and the template generator of
the Chest-Disease-Classification repository.  The Python sources
`template.py` and `src/cnnClassifier/utils/common.py` are shallowly embedded:
a file system is a map from path strings to file contents, logging and
exceptions are returned explicitly as values, and the third-party library
calls (`yaml.safe_load`, `json`/`joblib` serialization, `base64`) are
modelled at the level their documented behavior prescribes.
-/

/-- Log lines emitted through the project logger (`logger.info` /
`logger.error` in the Python sources). -/
inductive LogLine where
  | info : String → LogLine
  | error : String → LogLine
  deriving DecidableEq

/-- True exactly on informational log lines. -/
def isInfoLog : LogLine → Bool
  | LogLine.info _ => true
  | LogLine.error _ => false

/-- Python exceptions raised by the utility layer, carrying their message. -/
inductive PyErr where
  | fileNotFound : String → PyErr
  | valueError : String → PyErr
  | typeError : String → PyErr
  | yamlError : String → PyErr
  | boxValueError : String → PyErr
  | binasciiError : String → PyErr
  | ensureError : String → PyErr
  deriving DecidableEq

/-- Pointwise update of a path-indexed map, modelling a file write. -/
def updF {α : Type} (f : String → Option α) (p : String) (v : α) : String → Option α :=
  fun q => if q = p then some v else f q

/-! ### Base64 (model of Python `base64.b64encode` / `base64.b64decode`)

Python's `base64` module implements RFC 4648 base64 with the standard
alphabet and `=` padding.  Bytes are modelled as natural numbers below 256.
-/

/-- The standard base64 alphabet used by `base64.b64encode`. -/
def ALPHABET : List Char :=
  "ABCDEFGHIJKLMNOPQRSTUVWXYZabcdefghijklmnopqrstuvwxyz0123456789+/".toList

/-- Character for a 6-bit group. -/
def encChar (v : Nat) : Char := ALPHABET.getD v 'A'

/-- Index of a character in the base64 alphabet, none if not in it. -/
def decChar (c : Char) : Option Nat := ALPHABET.findIdx? (fun a => a == c)

/-- Model of `base64.b64encode` on a byte list: three bytes become four
alphabet characters, a final group of one or two bytes is padded with `=`. -/
def b64encode : List Nat → List Char
  | [] => []
  | [a] => [encChar (a / 4), encChar (a % 4 * 16), '=', '=']
  | [a, b] => [encChar (a / 4), encChar (a % 4 * 16 + b / 16), encChar (b % 16 * 4), '=']
  | a :: b :: c :: rest =>
      encChar (a / 4) :: encChar (a % 4 * 16 + b / 16) ::
      encChar (b % 16 * 4 + c / 64) :: encChar (c % 64) :: b64encode rest

/-- Model of `base64.b64decode` on well-formed base64 text: groups of four
characters are mapped back through the alphabet, `=` padding closes the
input.  (On ill-formed text Python's decoder first discards non-alphabet
characters and then may raise `binascii.Error`; no claim exercises that
path, the model simply rejects such input.) -/
def b64decode : List Char → Option (List Nat)
  | [] => some []
  | c1 :: c2 :: c3 :: c4 :: rest =>
      (decChar c1).bind (fun v1 =>
      (decChar c2).bind (fun v2 =>
      if c3 = '=' then
        (if c4 = '=' ∧ rest = [] then some [v1 * 4 + v2 / 16] else none)
      else
        (decChar c3).bind (fun v3 =>
        if c4 = '=' then
          (if rest = [] then some [v1 * 4 + v2 / 16, v2 % 16 * 16 + v3 / 4] else none)
        else
          (decChar c4).bind (fun v4 =>
          (b64decode rest).bind (fun bs =>
          some ((v1 * 4 + v2 / 16) :: (v2 % 16 * 16 + v3 / 4) :: (v3 % 4 * 64 + v4) :: bs))))))
  | _ => none

theorem decChar_encChar : ∀ v : Nat, v < 64 → decChar (encChar v) = some v := by decide

theorem encChar_ne_pad : ∀ v : Nat, v < 64 → encChar v ≠ '=' := by decide

/-- Decoding an encoded byte list recovers it exactly. -/
theorem b64_decode_encode : ∀ l : List Nat, (∀ x ∈ l, x < 256) →
    b64decode (b64encode l) = some l
  | [], _ => rfl
  | [a], h => by
      have ha : a < 256 := h a (by simp)
      show b64decode [encChar (a / 4), encChar (a % 4 * 16), '=', '='] = some [a]
      rw [b64decode, decChar_encChar (a / 4) (by omega), decChar_encChar (a % 4 * 16) (by omega)]
      simp only [Option.some_bind, if_pos rfl, ite_true, and_self, Option.some.injEq,
        List.cons.injEq, and_true]
      omega
  | [a, b], h => by
      have ha : a < 256 := h a (by simp)
      have hb : b < 256 := h b (by simp)
      show b64decode [encChar (a / 4), encChar (a % 4 * 16 + b / 16),
        encChar (b % 16 * 4), '='] = some [a, b]
      rw [b64decode, decChar_encChar (a / 4) (by omega),
        decChar_encChar (a % 4 * 16 + b / 16) (by omega)]
      simp only [Option.some_bind]
      rw [if_neg (encChar_ne_pad (b % 16 * 4) (by omega))]
      rw [decChar_encChar (b % 16 * 4) (by omega)]
      simp only [Option.some_bind, if_pos rfl, ite_true, Option.some.injEq,
        List.cons.injEq, and_true]
      omega
  | a :: b :: c :: rest, h => by
      have ha : a < 256 := h a (by simp)
      have hb : b < 256 := h b (by simp)
      have hc : c < 256 := h c (by simp)
      have ih := b64_decode_encode rest (fun x hx => h x (by simp [hx]))
      show b64decode (encChar (a / 4) :: encChar (a % 4 * 16 + b / 16) ::
        encChar (b % 16 * 4 + c / 64) :: encChar (c % 64) ::
        b64encode rest) = some (a :: b :: c :: rest)
      rw [b64decode, decChar_encChar (a / 4) (by omega),
        decChar_encChar (a % 4 * 16 + b / 16) (by omega)]
      simp only [Option.some_bind]
      rw [if_neg (encChar_ne_pad (b % 16 * 4 + c / 64) (by omega))]
      rw [decChar_encChar (b % 16 * 4 + c / 64) (by omega)]
      simp only [Option.some_bind]
      rw [if_neg (encChar_ne_pad (c % 64) (by omega))]
      rw [decChar_encChar (c % 64) (by omega)]
      simp only [Option.some_bind]
      rw [ih]
      simp only [Option.some_bind, Option.some.injEq, List.cons.injEq, and_true]
      refine ⟨by omega, by omega, by omega⟩

/-! ### Path splitting and directory creation (models of `os.path.split` and
`os.makedirs(..., exist_ok=True)`) -/

/-- Strip trailing slash characters, as `head.rstrip('/')` does. -/
def dropTrailingSlashes (l : List Char) : List Char :=
  (l.reverse.dropWhile (fun ch => ch == '/')).reverse

/-- Model of `os.path.split` (posixpath): split at the last slash; the head
keeps no trailing slashes unless it consists only of slashes. -/
def osPathSplit (p : String) : String × String :=
  let cs := p.toList
  match cs.reverse.findIdx? (fun ch => ch == '/') with
  | none => ("", p)
  | some k =>
      let i := cs.length - k
      let head := cs.take i
      let tail := cs.drop i
      let head2 := if head.all (fun ch => ch == '/') then head else dropTrailingSlashes head
      (String.mk head2, String.mk tail)

/-- The directories brought into existence by `os.makedirs(d, exist_ok=True)`:
the directory itself together with every ancestor on the way down. -/
def dirAncestors (d : String) : List String :=
  let comps := d.splitOn "/"
  (((List.range comps.length).map
      (fun k => String.intercalate "/" (comps.take (k + 1)))).filter
    (fun s => s != "")) ++ [d]

/-- Effect of `os.makedirs(d, exist_ok=True)` on the set of existing
directories: it marks the directory and its ancestors as present and never
fails when they already exist. -/
def makedirsSet (st : String → Bool) (d : String) : String → Bool :=
  fun q => if q ∈ dirAncestors d then true else st q

/-! ### Template generator (`template.py`, class TemplateCreator) -/

/-- File-system state seen by the template generator: the byte contents of
each existing file and the set of existing directories. -/
@[ext] structure TState where
  files : String → Option (List Nat)
  dirs : String → Bool

/-- One iteration of the loop body of `TemplateCreator.create_files` for a
single path: split the path, create the parent directory when the directory
part is non-empty, then create an empty file when the target is missing or
has zero length, otherwise leave it untouched and log that it exists. -/
def createOne (st : TState) (fp : String) : TState × List LogLine :=
  let sp := osPathSplit fp
  let dirs2 := if sp.1 = "" then st.dirs else makedirsSet st.dirs sp.1
  let dlog : List LogLine :=
    if sp.1 = "" then []
    else [LogLine.info ("Creating directory " ++ sp.1 ++ " for the files " ++ sp.2)]
  if st.files fp = none ∨ st.files fp = some [] then
    (TState.mk (updF st.files fp []) dirs2,
      dlog ++ [LogLine.info ("Creating empty file : " ++ fp)])
  else
    (TState.mk st.files dirs2, dlog ++ [LogLine.info (sp.2 ++ " is already exists")])

/-- Model of `TemplateCreator.create_files`: the loop over the path list. -/
def create_files (st : TState) : List String → TState × List LogLine
  | [] => (st, [])
  | fp :: rest =>
      let r1 := createOne st fp
      let r2 := create_files r1.1 rest
      (r2.1, r1.2 ++ r2.2)

/-- The project-name constant of the `__main__` block of template.py. -/
def project_name : String := "cnnClassifier"

/-- The hardcoded path list of the `__main__` block of template.py.  The
source writes the adjacent string literals "templates/index.html" and
"main.py" without a separating comma, which Python concatenates into the
single entry "templates/index.htmlmain.py"; the concatenation is written
explicitly here. -/
def list_of_files : List String :=
  [ "src/" ++ project_name ++ "/__init__.py"
  , "src/" ++ project_name ++ "/components/__init__.py"
  , "src/" ++ project_name ++ "/utils/__init__.py"
  , "src/" ++ project_name ++ "/utils/common.py"
  , "src/" ++ project_name ++ "/config/__init__.py"
  , "src/" ++ project_name ++ "/config/configuration.py"
  , "src/" ++ project_name ++ "/pipeline/__init__.py"
  , "src/" ++ project_name ++ "/entity/__init__.py"
  , "src/" ++ project_name ++ "/constants/__init__.py"
  , "config/config.yaml"
  , "dvc.yaml"
  , "params.yaml"
  , "requirements.txt"
  , "setup.py"
  , "research/trials.ipynb"
  , "templates/index.html" ++ "main.py" ]

/-! ### Persistence utilities (`src/cnnClassifier/utils/common.py`)

Each utility returns its result as an `Except`, the file system it leaves
behind when it writes, and the log lines it emits, in program order. -/

/-- Nested Python data as produced by `yaml.safe_load` / `json.load`. -/
inductive PyData where
  | pdict : List (String × PyData) → PyData
  | pstr : String → PyData
  | pint : Int → PyData
  | pbool : Bool → PyData
  | plist : List PyData → PyData

/-- Whether the value is a mapping (a Python dict). -/
def PyData.isDict : PyData → Bool
  | PyData.pdict _ => true
  | _ => false

/-- The Python runtime type name of a value, as it appears in the message of
ensure's boundary-check error. -/
def pyTypeName : PyData → String
  | PyData.pdict _ => "dict"
  | PyData.pstr _ => "str"
  | PyData.pint _ => "int"
  | PyData.pbool _ => "bool"
  | PyData.plist _ => "list"

/-- File system keyed by path holding text contents. -/
abbrev FSY := String → Option String

/-- File system keyed by path holding structured JSON contents. -/
abbrev FSJ := String → Option PyData

/-- File system keyed by path holding raw byte contents. -/
abbrev FSB := String → Option (List Nat)

/-- Model of `read_yaml`.  The YAML library is abstracted as a `parse`
function returning either a parse-error message, `none` for an empty
document (what `yaml.safe_load` returns on empty input), or a parsed value.
A missing file becomes a not-found error naming the path; a parse failure
becomes a YAML error; the success log is emitted before the `ConfigBox`
conversion, which raises `BoxValueError` (re-raised as `ValueError`) when
the document is empty or not a mapping. -/
def read_yaml (parse : String → Except String (Option PyData)) (fs : FSY) (p : String) :
    Except PyErr PyData × List LogLine :=
  match fs p with
  | none => (Except.error (PyErr.fileNotFound ("YAML file not found at: " ++ p)), [])
  | some text =>
      match parse text with
      | Except.error e => (Except.error (PyErr.yamlError ("Error parsing YAML: " ++ e)), [])
      | Except.ok none =>
          (Except.error (PyErr.valueError "Invalid YAML file: first argument must be mapping"),
            [LogLine.info ("YAML file: " ++ p ++ " loaded successfully.")])
      | Except.ok (some content) =>
          if content.isDict then
            (Except.ok content, [LogLine.info ("YAML file: " ++ p ++ " loaded successfully.")])
          else
            (Except.error (PyErr.valueError "Invalid YAML file: first argument must be mapping"),
              [LogLine.info ("YAML file: " ++ p ++ " loaded successfully.")])

/-- Model of `create_directories`.  A per-path OS failure (the `fail` oracle)
is caught, logged as an error and skipped, and the loop continues with the
remaining paths; on success the directory is created and, when verbose, one
informational line is logged.  The function itself never raises: its result
type carries no exception. -/
def create_directories (fail : String → Bool) (verbose : Bool) (st : String → Bool) :
    List String → (String → Bool) × List LogLine
  | [] => (st, [])
  | p :: rest =>
      if fail p then
        let r := create_directories fail verbose st rest
        (r.1, LogLine.error ("Error creating directory at " ++ p) :: r.2)
      else
        let st1 := makedirsSet st p
        let r := create_directories fail verbose st1 rest
        (r.1, (if verbose then [LogLine.info ("Created directory at: " ++ p)] else []) ++ r.2)

/-- The undecorated body of `save_json`: its own isinstance guard would
raise a TypeError before the write; otherwise the data is written and one
informational line is logged after the write. -/
def save_json_body (fs : FSJ) (path : String) (data : PyData) :
    Except PyErr Unit × FSJ × List LogLine :=
  if !data.isDict then
    (Except.error (PyErr.typeError "Input data must be a dictionary."), fs, [])
  else
    (Except.ok (), updF fs path data, [LogLine.info ("JSON file saved at: " ++ path)])

/-- Model of `save_json` as called: the `ensure_annotations` decorator
checks `isinstance(data, dict)` at the call boundary and raises
`EnsureError` (an `AssertionError` subclass, not a `TypeError`, with
ensure's own message) before the body runs, leaving the file system
untouched; only a mapping reaches the body, so the body's TypeError branch
is unreachable.  The other decorated utilities take arguments whose Lean
types already coincide with their annotations, so their boundary checks are
identities in this embedding; `save_json` is the one function a claim calls
with a value of a different runtime type. -/
def save_json (fs : FSJ) (path : String) (data : PyData) :
    Except PyErr Unit × FSJ × List LogLine :=
  if !data.isDict then
    (Except.error (PyErr.ensureError
      ("Argument data of type " ++ pyTypeName data ++
        " to save_json does not match annotation type dict")), fs, [])
  else
    save_json_body fs path data

/-- True exactly when the call ended in a TypeError, distinguishing the
body's TypeError from the boundary-check error. -/
def resultIsTypeError : Except PyErr Unit → Bool
  | Except.error (PyErr.typeError _) => true
  | _ => false

/-- Model of `load_json`: a missing file raises a not-found error naming the
path; otherwise the success log is emitted and the content is wrapped in a
`ConfigBox`, which raises `BoxValueError` (uncaught here) when the content is
not a mapping. -/
def load_json (fs : FSJ) (path : String) : Except PyErr PyData × List LogLine :=
  match fs path with
  | none => (Except.error (PyErr.fileNotFound ("JSON file not found at: " ++ path)), [])
  | some content =>
      if content.isDict then
        (Except.ok content, [LogLine.info ("JSON file loaded successfully from: " ++ path)])
      else
        (Except.error (PyErr.boxValueError "First argument must be mapping or iterable"),
          [LogLine.info ("JSON file loaded successfully from: " ++ path)])

/-- Model of `save_bin`.  `joblib.dump` is an opaque object-serialization
whose only documented guarantee is a value-preserving round trip, so the
file is modelled as storing the value itself; one informational line is
logged after a successful dump. -/
def save_bin {α : Type} (fs : String → Option α) (data : α) (path : String) :
    Except PyErr Unit × (String → Option α) × List LogLine :=
  (Except.ok (), updF fs path data, [LogLine.info ("Binary file saved at: " ++ path)])

/-- Model of `load_bin`: a missing file raises a not-found error naming the
path; otherwise the stored value is returned and one informational line is
logged. -/
def load_bin {α : Type} (fs : String → Option α) (path : String) :
    Except PyErr α × List LogLine :=
  match fs path with
  | none => (Except.error (PyErr.fileNotFound ("Binary file not found at: " ++ path)), [])
  | some data => (Except.ok data, [LogLine.info ("Binary file loaded from: " ++ path)])

/-- The UNITS_MAPPING dictionary of `get_size`. -/
def UNITS_MAPPING : List (String × Nat) :=
  [("KB", 1024), ("MB", 1024 * 1024), ("GB", 1024 * 1024 * 1024)]

/-- Python's `round(bytes / den, 2)` computed exactly on the scaled value
`bytes * 100 / den`, rounding half to even as Python's `round` does.  (The
Python source computes this through binary floating point; the claims only
evaluate it at inputs where the float result is exact.) -/
def roundTo2 (bytes den : Nat) : Nat :=
  let num := bytes * 100
  let q := num / den
  let r := num % den
  if 2 * r < den then q
  else if den < 2 * r then q + 1
  else if q % 2 = 0 then q else q + 1

/-- Decimal rendering of a value held in hundredths, as Python formats the
rounded float: at least one fractional digit, no trailing zero after a
second fractional digit. -/
def formatHundredths (n : Nat) : String :=
  let ip := n / 100
  let fr := n % 100
  Nat.repr ip ++ "." ++
    (if fr % 10 = 0 then Nat.repr (fr / 10)
     else if fr < 10 then "0" ++ Nat.repr fr
     else Nat.repr fr)

/-- Model of `get_size`: a missing file raises a not-found error naming the
path (checked first); a unit outside UNITS_MAPPING raises a value error; on
success the size string is returned and nothing is logged. -/
def get_size (fs : FSB) (path : String) (units : String) :
    Except PyErr String × List LogLine :=
  match fs path with
  | none => (Except.error (PyErr.fileNotFound ("File not found at: " ++ path)), [])
  | some content =>
      match UNITS_MAPPING.find? (fun u => u.1 == units) with
      | none =>
          (Except.error (PyErr.valueError
            ("Invalid unit: " ++ units ++ ". Choose from KB, MB, or GB.")), [])
      | some u =>
          (Except.ok ("~ " ++ formatHundredths (roundTo2 content.length u.2) ++ " " ++ units), [])

/-- Model of `decode_image`: the string is base64-decoded (raising
`binascii.Error` on invalid input, before any file is touched), the bytes
are written to the destination file, and one informational line is logged. -/
def decode_image (fs : FSB) (imgstring : String) (filename : String) :
    Except PyErr Unit × FSB × List LogLine :=
  match b64decode imgstring.toList with
  | none => (Except.error (PyErr.binasciiError "Invalid base64-encoded string"), fs, [])
  | some imgdata =>
      (Except.ok (), updF fs filename imgdata,
        [LogLine.info ("Decoded image saved at: " ++ filename)])

/-- Model of `encode_image_to_base64`: a missing file raises a not-found
error naming the path; otherwise the bytes are read, base64-encoded and
returned; nothing is logged on success. -/
def encode_image_to_base64 (fs : FSB) (image_path : String) :
    Except PyErr String × List LogLine :=
  match fs image_path with
  | none => (Except.error (PyErr.fileNotFound ("Image file not found at: " ++ image_path)), [])
  | some image_data => (Except.ok (String.mk (b64encode image_data)), [])

/-! ### Lemmas about the template generator -/

theorem makedirsSet_mono (st : String → Bool) (d a : String) (h : st a = true) :
    makedirsSet st d a = true := by
  unfold makedirsSet
  split
  · rfl
  · exact h

theorem makedirsSet_sets (st : String → Bool) (d a : String) (h : a ∈ dirAncestors d) :
    makedirsSet st d a = true := by
  unfold makedirsSet
  rw [if_pos h]

theorem makedirsSet_id (st : String → Bool) (d : String)
    (h : ∀ a ∈ dirAncestors d, st a = true) : makedirsSet st d = st := by
  funext q
  unfold makedirsSet
  by_cases hq : q ∈ dirAncestors d
  · rw [if_pos hq, (h q hq)]
  · rw [if_neg hq]

theorem createOne_files (st : TState) (fp q : String) :
    ((createOne st fp).1).files q =
      if q = fp ∧ (st.files fp = none ∨ st.files fp = some []) then some []
      else st.files q := by
  simp only [createOne, updF]
  by_cases hc : st.files fp = none ∨ st.files fp = some []
  · simp only [hc, ite_true, and_true]
    rfl
  · simp only [hc, ite_false, and_false, if_false]

theorem createOne_dirs (st : TState) (fp a : String) :
    ((createOne st fp).1).dirs a =
      (if (osPathSplit fp).1 = "" then st.dirs else makedirsSet st.dirs (osPathSplit fp).1) a := by
  simp only [createOne]
  by_cases hc : st.files fp = none ∨ st.files fp = some []
  · simp only [hc, ite_true]
  · simp only [hc, ite_false]

theorem create_files_cons (st : TState) (p : String) (ps : List String) :
    (create_files st (p :: ps)).1 = (create_files ((createOne st p).1) ps).1 := rfl

theorem createOne_files_ne_none (st : TState) (fp q : String) (h : st.files q ≠ none) :
    ((createOne st fp).1).files q ≠ none := by
  rw [createOne_files]
  split
  · simp
  · exact h

theorem createOne_dirs_mono (st : TState) (fp a : String) (h : st.dirs a = true) :
    ((createOne st fp).1).dirs a = true := by
  rw [createOne_dirs]
  split
  · exact h
  · exact makedirsSet_mono _ _ _ h

/-- A path is settled when its file exists and, when its directory part is
non-empty, all the directories that its creation step would make exist. -/
def pathDone (st : TState) (p : String) : Prop :=
  st.files p ≠ none ∧
    ((osPathSplit p).1 ≠ "" → ∀ a ∈ dirAncestors (osPathSplit p).1, st.dirs a = true)

theorem createOne_pathDone_self (st : TState) (p : String) : pathDone (createOne st p).1 p := by
  constructor
  · rw [createOne_files]
    split
    · simp
    · rename_i hneg
      intro hn
      exact hneg ⟨rfl, Or.inl hn⟩
  · intro hne a ha
    rw [createOne_dirs, if_neg hne]
    exact makedirsSet_sets _ _ _ ha

theorem createOne_preserves_pathDone (st : TState) (q p : String) (h : pathDone st p) :
    pathDone (createOne st q).1 p :=
  ⟨createOne_files_ne_none st q p h.1,
   fun hne a ha => createOne_dirs_mono st q a (h.2 hne a ha)⟩

theorem create_files_preserves_pathDone (ps : List String) (st : TState) (p : String)
    (h : pathDone st p) : pathDone (create_files st ps).1 p := by
  induction ps generalizing st with
  | nil => exact h
  | cons q rest ih =>
      rw [create_files_cons]
      exact ih _ (createOne_preserves_pathDone st q p h)

theorem create_files_pathDone_mem (ps : List String) (st : TState) (p : String)
    (hp : p ∈ ps) : pathDone (create_files st ps).1 p := by
  induction ps generalizing st with
  | nil => cases hp
  | cons q rest ih =>
      rw [create_files_cons]
      rcases List.mem_cons.mp hp with h1 | h2
      · subst h1
        exact create_files_preserves_pathDone rest _ p (createOne_pathDone_self st p)
      · exact ih _ h2

theorem createOne_stable (st : TState) (p : String) (h : pathDone st p) :
    (createOne st p).1 = st := by
  apply TState.ext
  · funext q
    rw [createOne_files]
    split
    · rename_i hcond
      obtain ⟨hq, hor⟩ := hcond
      rcases hor with h1 | h1
      · exact absurd h1 h.1
      · rw [hq, h1]
    · rfl
  · funext a
    rw [createOne_dirs]
    split
    · rfl
    · rename_i hne
      rw [makedirsSet_id st.dirs _ (h.2 hne)]

theorem create_files_stable (ps : List String) (st : TState)
    (h : ∀ p ∈ ps, pathDone st p) : (create_files st ps).1 = st := by
  induction ps generalizing st with
  | nil => rfl
  | cons q rest ih =>
      rw [create_files_cons, createOne_stable st q (h q (List.mem_cons_self q rest))]
      exact ih st (fun p hp => h p (List.mem_cons_of_mem q hp))

theorem create_files_preserves_content (st : TState) (ps : List String) (p : String)
    (c : List Nat) (hc : st.files p = some c) (hne : c ≠ []) :
    ((create_files st ps).1).files p = some c := by
  induction ps generalizing st with
  | nil => exact hc
  | cons q rest ih =>
      rw [create_files_cons]
      apply ih
      rw [createOne_files]
      split
      · rename_i hcond
        obtain ⟨hq, hor⟩ := hcond
        rw [hq] at hc
        rcases hor with h1 | h1
        · rw [h1] at hc
          cases hc
        · rw [h1] at hc
          exact absurd (Option.some.inj hc).symm hne
      · exact hc

theorem create_files_keeps_empty (st : TState) (ps : List String) (p : String)
    (h : st.files p = some []) : ((create_files st ps).1).files p = some [] := by
  induction ps generalizing st with
  | nil => exact h
  | cons q rest ih =>
      rw [create_files_cons]
      apply ih
      rw [createOne_files]
      split
      · rfl
      · exact h

theorem create_files_creates (st : TState) (ps : List String) (p : String)
    (hp : p ∈ ps) (h0 : st.files p = none ∨ st.files p = some []) :
    ((create_files st ps).1).files p = some [] := by
  induction ps generalizing st with
  | nil => cases hp
  | cons q rest ih =>
      rw [create_files_cons]
      by_cases hq : p = q
      · subst hq
        apply create_files_keeps_empty
        rw [createOne_files, if_pos ⟨rfl, h0⟩]
      · rcases List.mem_cons.mp hp with h1 | h2
        · exact absurd h1 hq
        · apply ih _ h2
          rw [createOne_files, if_neg (fun hand => hq hand.1)]
          exact h0

theorem create_files_untouched (st : TState) (ps : List String) (q : String)
    (h : ∀ p ∈ ps, p ≠ q) : ((create_files st ps).1).files q = st.files q := by
  induction ps generalizing st with
  | nil => rfl
  | cons p rest ih =>
      rw [create_files_cons, ih _ (fun r hr => h r (List.mem_cons_of_mem p hr))]
      rw [createOne_files,
        if_neg (fun hand => h p (List.mem_cons_self p rest) hand.1.symm)]

/-! ### Lemmas about create_directories -/

theorem self_mem_dirAncestors (d : String) : d ∈ dirAncestors d := by
  simp [dirAncestors]

theorem create_directories_mono (fail : String → Bool) (v : Bool) (st : String → Bool)
    (ps : List String) (a : String) (h : st a = true) :
    (create_directories fail v st ps).1 a = true := by
  induction ps generalizing st with
  | nil => exact h
  | cons q rest ih =>
      by_cases hq : fail q = true
      · simp only [create_directories, hq, ite_true]
        exact ih st h
      · simp only [create_directories, hq, ite_false]
        exact ih _ (makedirsSet_mono st q a h)

theorem create_directories_sets (fail : String → Bool) (v : Bool) (st : String → Bool)
    (ps : List String) (p : String) (hp : p ∈ ps) (hf : fail p = false) :
    (create_directories fail v st ps).1 p = true := by
  induction ps generalizing st with
  | nil => cases hp
  | cons q rest ih =>
      rcases List.mem_cons.mp hp with h1 | h2
      · subst h1
        simp only [create_directories, hf, ite_false, Bool.false_eq_true]
        exact create_directories_mono fail v _ rest p
          (makedirsSet_sets st p p (self_mem_dirAncestors p))
      · by_cases hq : fail q = true
        · simp only [create_directories, hq, ite_true]
          exact ih st h2
        · simp only [create_directories, hq, ite_false]
          exact ih _ h2

theorem create_directories_append (fail : String → Bool) (v : Bool) (st : String → Bool)
    (ps qs : List String) :
    (create_directories fail v st (ps ++ qs)).1 =
      (create_directories fail v (create_directories fail v st ps).1 qs).1 := by
  induction ps generalizing st with
  | nil => rfl
  | cons p rest ih =>
      by_cases hp : fail p = true
      · simp only [List.cons_append, create_directories, hp, ite_true]
        exact ih st
      · simp only [List.cons_append, create_directories, hp, ite_false]
        exact ih _

/-- All ancestors of the non-failing paths of the batch exist in the state. -/
def dirsDone (fail : String → Bool) (st : String → Bool) (ps : List String) : Prop :=
  ∀ p ∈ ps, fail p = false → ∀ a ∈ dirAncestors p, st a = true

theorem create_directories_all_done (fail : String → Bool) (v : Bool) (st : String → Bool)
    (ps : List String) : dirsDone fail (create_directories fail v st ps).1 ps := by
  intro p hp hf a ha
  induction ps generalizing st with
  | nil => cases hp
  | cons q rest ih =>
      rcases List.mem_cons.mp hp with h1 | h2
      · subst h1
        simp only [create_directories, hf, ite_false, Bool.false_eq_true]
        exact create_directories_mono fail v _ rest a (makedirsSet_sets st p a ha)
      · by_cases hq : fail q = true
        · simp only [create_directories, hq, ite_true]
          exact ih st h2
        · simp only [create_directories, hq, ite_false]
          exact ih _ h2

theorem create_directories_stable (fail : String → Bool) (v : Bool) (st : String → Bool)
    (ps : List String) (h : dirsDone fail st ps) :
    (create_directories fail v st ps).1 = st := by
  induction ps generalizing st with
  | nil => rfl
  | cons q rest ih =>
      by_cases hq : fail q = true
      · simp only [create_directories, hq, ite_true]
        exact ih st (fun p hp => h p (List.mem_cons_of_mem q hp))
      · simp only [create_directories, hq, ite_false]
        rw [makedirsSet_id st q (h q (List.mem_cons_self q rest) (by simpa using hq))]
        exact ih st (fun p hp => h p (List.mem_cons_of_mem q hp))

theorem create_directories_logs_length (fail : String → Bool) (st : String → Bool)
    (ps : List String) :
    ((create_directories fail true st ps).2).length = ps.length := by
  induction ps generalizing st with
  | nil => rfl
  | cons q rest ih =>
      by_cases hq : fail q = true
      · simp [create_directories, hq, ih st]
      · simp [create_directories, hq, ih]

/-! ### Claim theorems -/

/-- C1: for every list of target paths, create_files leaves any file with
non-zero length untouched (its content is preserved), creates an empty file
at any listed path whose file is missing or has zero length, and running
create_files twice on the same path list produces the same final
file-system state as running it once. -/
theorem claim_C1_create_files (st : TState) (ps : List String) :
    (∀ p c, st.files p = some c → c ≠ [] → ((create_files st ps).1).files p = some c)
    ∧ (∀ p, p ∈ ps → st.files p = none ∨ st.files p = some [] →
        ((create_files st ps).1).files p = some [])
    ∧ (create_files ((create_files st ps).1) ps).1 = (create_files st ps).1 :=
  ⟨fun p c hc hne => create_files_preserves_content st ps p c hc hne,
   fun p hp h0 => create_files_creates st ps p hp h0,
   create_files_stable ps (create_files st ps).1
     (fun p hp => create_files_pathDone_mem ps st p hp)⟩

theorem claim_C1_witness :
    ((create_files (TState.mk (fun q => if q = "keep.txt" then some [7] else none)
        (fun _ => false)) ["keep.txt", "a/b.txt"]).1).files "keep.txt" = some [7]
    ∧ ((create_files (TState.mk (fun q => if q = "keep.txt" then some [7] else none)
        (fun _ => false)) ["keep.txt", "a/b.txt"]).1).files "a/b.txt" = some []
    ∧ (create_files ((create_files (TState.mk (fun q => if q = "keep.txt" then some [7] else none)
        (fun _ => false)) ["keep.txt", "a/b.txt"]).1) ["keep.txt", "a/b.txt"]).1 =
      (create_files (TState.mk (fun q => if q = "keep.txt" then some [7] else none)
        (fun _ => false)) ["keep.txt", "a/b.txt"]).1 := by
  obtain ⟨h1, h2, h3⟩ := claim_C1_create_files
    (TState.mk (fun q => if q = "keep.txt" then some [7] else none) (fun _ => false))
    ["keep.txt", "a/b.txt"]
  exact ⟨h1 "keep.txt" [7] (by decide) (by decide), h2 "a/b.txt" (by decide) (Or.inl (by decide)), h3⟩

/-- C2: writing a byte string to a file, encoding that file with
encode_image_to_base64 and decoding the resulting string with decode_image
to a destination path yields a destination file whose bytes equal the
original byte string exactly. -/
theorem claim_C2_base64_file_roundtrip (fs : FSB) (p dst : String) (b : List Nat)
    (hb : ∀ x ∈ b, x < 256) :
    ∃ s, (encode_image_to_base64 (updF fs p b) p).1 = Except.ok s
      ∧ ((decode_image (updF fs p b) s dst).2.1) dst = some b := by
  refine ⟨String.mk (b64encode b), ?_, ?_⟩
  · simp [encode_image_to_base64, updF]
  · have hdec : b64decode (b64encode b) = some b := b64_decode_encode b hb
    simp [decode_image, hdec, updF]

theorem claim_C2_witness :
    ∃ s, (encode_image_to_base64 (updF (fun _ => none) "img.png" [72, 105, 33]) "img.png").1 =
        Except.ok s
      ∧ ((decode_image (updF (fun _ => none) "img.png" [72, 105, 33]) s "out.png").2.1) "out.png" =
        some [72, 105, 33] :=
  claim_C2_base64_file_roundtrip (fun _ => none) "img.png" "out.png" [72, 105, 33] (by decide)

/-- C3: read_yaml raises a not-found error whose message contains the
missing path when no file exists there, a value error when the file content
is empty, and a parse error when the YAML syntax is malformed. -/
theorem claim_C3_read_yaml_errors (parse : String → Except String (Option PyData))
    (fs : FSY) (p : String) :
    (fs p = none → read_yaml parse fs p =
      (Except.error (PyErr.fileNotFound ("YAML file not found at: " ++ p)), []))
    ∧ (fs p = some "" → parse "" = Except.ok none →
        (read_yaml parse fs p).1 =
          Except.error (PyErr.valueError "Invalid YAML file: first argument must be mapping"))
    ∧ (∀ text e, fs p = some text → parse text = Except.error e →
        (read_yaml parse fs p).1 =
          Except.error (PyErr.yamlError ("Error parsing YAML: " ++ e))) := by
  refine ⟨fun h => ?_, fun h hparse => ?_, fun text e h hparse => ?_⟩
  · simp [read_yaml, h]
  · simp [read_yaml, h, hparse]
  · simp [read_yaml, h, hparse]

theorem claim_C3_witness :
    (read_yaml (fun s => if s = "" then Except.ok none else Except.error "could not parse")
        (fun q => if q = "empty.yaml" then some "" else
          if q = "bad.yaml" then some "bad yaml" else none) "missing.yaml" =
      (Except.error (PyErr.fileNotFound ("YAML file not found at: " ++ "missing.yaml")), []))
    ∧ ((read_yaml (fun s => if s = "" then Except.ok none else Except.error "could not parse")
        (fun q => if q = "empty.yaml" then some "" else
          if q = "bad.yaml" then some "bad yaml" else none) "empty.yaml").1 =
      Except.error (PyErr.valueError "Invalid YAML file: first argument must be mapping"))
    ∧ ((read_yaml (fun s => if s = "" then Except.ok none else Except.error "could not parse")
        (fun q => if q = "empty.yaml" then some "" else
          if q = "bad.yaml" then some "bad yaml" else none) "bad.yaml").1 =
      Except.error (PyErr.yamlError ("Error parsing YAML: " ++ "could not parse"))) := by
  refine ⟨?_, ?_, ?_⟩
  · exact (claim_C3_read_yaml_errors _ _ "missing.yaml").1 rfl
  · exact (claim_C3_read_yaml_errors _ _ "empty.yaml").2.1 rfl rfl
  · exact (claim_C3_read_yaml_errors _ _ "bad.yaml").2.2 "bad yaml" "could not parse" rfl rfl

/-- C4: for an existing zero-byte file, get_size with the default unit "KB"
returns the string "~ 0.0 KB"; for an existing file of exactly 2048 bytes
with unit "KB", it returns "~ 2.0 KB". -/
theorem claim_C4_get_size_values (fs : FSB) (p : String) (b : List Nat)
    (hb : fs p = some b) :
    (b.length = 0 → get_size fs p "KB" = (Except.ok "~ 0.0 KB", []))
    ∧ (b.length = 2048 → get_size fs p "KB" = (Except.ok "~ 2.0 KB", [])) := by
  constructor <;> intro hl <;> simp [get_size, hb, UNITS_MAPPING, List.find?, hl] <;> rfl

theorem claim_C4_witness :
    get_size (fun q => if q = "zero.bin" then some [] else
        if q = "two.bin" then some (List.replicate 2048 0) else none) "zero.bin" "KB" =
      (Except.ok "~ 0.0 KB", [])
    ∧ get_size (fun q => if q = "zero.bin" then some [] else
        if q = "two.bin" then some (List.replicate 2048 0) else none) "two.bin" "KB" =
      (Except.ok "~ 2.0 KB", []) :=
  ⟨(claim_C4_get_size_values _ "zero.bin" [] rfl).1 rfl,
   (claim_C4_get_size_values _ "two.bin" (List.replicate 2048 0) rfl).2
     (List.length_replicate 2048 0)⟩

/-- C5: for an existing file, get_size with a unit outside KB, MB, GB raises
a value error; the not-found branch is not taken when the file exists. -/
theorem claim_C5_get_size_invalid_unit (fs : FSB) (p u : String) (b : List Nat)
    (hb : fs p = some b) (hu : u ≠ "KB" ∧ u ≠ "MB" ∧ u ≠ "GB") :
    (get_size fs p u).1 =
      Except.error (PyErr.valueError ("Invalid unit: " ++ u ++ ". Choose from KB, MB, or GB.")) := by
  have h1 : (("KB" : String) == u) = false := beq_eq_false_iff_ne.mpr (Ne.symm hu.1)
  have h2 : (("MB" : String) == u) = false := beq_eq_false_iff_ne.mpr (Ne.symm hu.2.1)
  have h3 : (("GB" : String) == u) = false := beq_eq_false_iff_ne.mpr (Ne.symm hu.2.2)
  simp [get_size, hb, UNITS_MAPPING, List.find?, h1, h2, h3]

theorem claim_C5_witness :
    (get_size (fun q => if q = "f.bin" then some [1] else none) "f.bin" "TB").1 =
      Except.error (PyErr.valueError ("Invalid unit: " ++ "TB" ++ ". Choose from KB, MB, or GB.")) :=
  claim_C5_get_size_invalid_unit _ "f.bin" "TB" [1] rfl (by decide)

/-- C6: create_directories never raises on a per-path OS creation failure
(its result type carries no exception and the failing path is only logged):
every non-failing path of the batch ends up created even when earlier paths
fail, processing the paths twice yields the same directory state as once
(so duplicate paths are handled idempotently), and with the default verbose
flag every path of the batch contributes exactly one log line. -/
theorem claim_C6_create_directories (fail : String → Bool) (v : Bool)
    (st : String → Bool) (ps : List String) :
    (∀ p ∈ ps, fail p = false → (create_directories fail v st ps).1 p = true)
    ∧ (create_directories fail v st (ps ++ ps)).1 = (create_directories fail v st ps).1
    ∧ ((create_directories fail true st ps).2).length = ps.length := by
  refine ⟨fun p hp hf => create_directories_sets fail v st ps p hp hf, ?_,
    create_directories_logs_length fail st ps⟩
  rw [create_directories_append]
  exact create_directories_stable fail v _ ps (create_directories_all_done fail v st ps)

theorem claim_C6_witness :
    (create_directories (fun q => q == "bad") true (fun _ => false)
        ["bad", "a/b", "a/b"]).1 "a/b" = true
    ∧ (create_directories (fun q => q == "bad") true (fun _ => false)
        (["bad", "a/b", "a/b"] ++ ["bad", "a/b", "a/b"])).1 =
      (create_directories (fun q => q == "bad") true (fun _ => false) ["bad", "a/b", "a/b"]).1
    ∧ ((create_directories (fun q => q == "bad") true (fun _ => false)
        ["bad", "a/b", "a/b"]).2).length = 3 := by
  obtain ⟨h1, h2, h3⟩ := claim_C6_create_directories (fun q => q == "bad") true
    (fun _ => false) ["bad", "a/b", "a/b"]
  exact ⟨h1 "a/b" (by decide) (by decide), h2, h3⟩

/-- C7, counterexample: calling save_json with a non-mapping argument does
not raise a TypeError: the `ensure_annotations` boundary check raises
EnsureError (an AssertionError subclass with ensure's own message) before
the body's TypeError branch can run. -/
theorem claim_C7_counterexample :
    save_json (fun _ => none) "out.json" (PyData.plist []) =
      (Except.error (PyErr.ensureError
        "Argument data of type list to save_json does not match annotation type dict"),
        (fun _ => (none : Option PyData)), [])
    ∧ resultIsTypeError (save_json (fun _ => none) "out.json" (PyData.plist [])).1 = false :=
  ⟨rfl, rfl⟩

/-- C7, amended: calling save_json with a data argument that is not a
mapping raises ensure's EnsureError at the interface boundary (from the
`ensure_annotations` decorator, an AssertionError subclass rather than a
TypeError), before any file is opened or written, so the file system it
returns is the unchanged input and the target file keeps its prior content;
the body's TypeError is unreachable on every call. -/
theorem claim_C7_save_json_boundary (fs : FSJ) (p : String) (d : PyData)
    (hd : d.isDict = false) :
    save_json fs p d =
      (Except.error (PyErr.ensureError ("Argument data of type " ++ pyTypeName d ++
        " to save_json does not match annotation type dict")), fs, [])
    ∧ (save_json fs p d).2.1 p = fs p
    ∧ ∀ (fs2 : FSJ) (q : String) (e : PyData),
        resultIsTypeError (save_json fs2 q e).1 = false := by
  refine ⟨?_, ?_, ?_⟩
  · simp [save_json, hd]
  · simp [save_json, hd]
  · intro fs2 q e
    by_cases he : e.isDict = true
    · simp [save_json, save_json_body, he, resultIsTypeError]
    · simp at he
      simp [save_json, he, resultIsTypeError]

theorem claim_C7_witness :
    save_json (fun q => if q = "cfg.json" then some (PyData.pstr "old") else none)
        "cfg.json" (PyData.pint 3) =
      (Except.error (PyErr.ensureError ("Argument data of type " ++ pyTypeName (PyData.pint 3) ++
        " to save_json does not match annotation type dict")),
        (fun q => if q = "cfg.json" then some (PyData.pstr "old") else none), [])
    ∧ (save_json (fun q => if q = "cfg.json" then some (PyData.pstr "old") else none)
        "cfg.json" (PyData.pint 3)).2.1 "cfg.json" =
      (fun q => if q = "cfg.json" then some (PyData.pstr "old") else none) "cfg.json"
    ∧ ∀ (fs2 : FSJ) (q : String) (e : PyData),
        resultIsTypeError (save_json fs2 q e).1 = false :=
  claim_C7_save_json_boundary _ "cfg.json" (PyData.pint 3) rfl

/-- C8, counterexample: the claim that every persistence utility logs
exactly one informational line on success fails on get_size and
encode_image_to_base64, which succeed here while logging nothing. -/
theorem claim_C8_counterexample :
    ((get_size (fun q => if q = "m.txt" then some [] else none) "m.txt" "KB").1 =
        Except.ok "~ 0.0 KB"
      ∧ ((get_size (fun q => if q = "m.txt" then some [] else none) "m.txt" "KB").2).countP
          isInfoLog ≠ 1)
    ∧ ((encode_image_to_base64 (fun q => if q = "m.png" then some [1, 2] else none) "m.png").1 =
        Except.ok (String.mk (b64encode [1, 2]))
      ∧ ((encode_image_to_base64 (fun q => if q = "m.png" then some [1, 2] else none)
          "m.png").2).countP isInfoLog ≠ 1) :=
  ⟨⟨rfl, by decide⟩, ⟨rfl, by decide⟩⟩

/-- C8, amended: get_size and encode_image_to_base64 emit no log line on a
successful call; the per-item persistence utilities read_yaml, save_json,
load_json, save_bin, load_bin and decode_image each emit exactly one
informational line on a successful call; and create_directories, a batch
operation, emits one line per path when verbose and no path fails. -/
theorem claim_C8_success_logging :
    (∀ (fs : FSB) (p u s : String), (get_size fs p u).1 = Except.ok s →
      ((get_size fs p u).2).countP isInfoLog = 0)
    ∧ (∀ (fs : FSB) (p s : String), (encode_image_to_base64 fs p).1 = Except.ok s →
      ((encode_image_to_base64 fs p).2).countP isInfoLog = 0)
    ∧ (∀ (parse : String → Except String (Option PyData)) (fs : FSY) (p : String) (v : PyData),
        (read_yaml parse fs p).1 = Except.ok v →
        ((read_yaml parse fs p).2).countP isInfoLog = 1)
    ∧ (∀ (fs : FSJ) (p : String) (d : PyData) (u : Unit), (save_json fs p d).1 = Except.ok u →
        ((save_json fs p d).2.2).countP isInfoLog = 1)
    ∧ (∀ (fs : FSJ) (p : String) (v : PyData), (load_json fs p).1 = Except.ok v →
        ((load_json fs p).2).countP isInfoLog = 1)
    ∧ (∀ (α : Type) (fs : String → Option α) (x : α) (p : String),
        ((save_bin fs x p).2.2).countP isInfoLog = 1)
    ∧ (∀ (α : Type) (fs : String → Option α) (p : String) (v : α),
        (load_bin fs p).1 = Except.ok v → ((load_bin fs p).2).countP isInfoLog = 1)
    ∧ (∀ (fs : FSB) (s dst : String) (u : Unit), (decode_image fs s dst).1 = Except.ok u →
        ((decode_image fs s dst).2.2).countP isInfoLog = 1)
    ∧ (∀ (fail : String → Bool) (st : String → Bool) (ps : List String),
        (∀ p ∈ ps, fail p = false) →
        ((create_directories fail true st ps).2).countP isInfoLog = ps.length) := by
  refine ⟨?_, ?_, ?_, ?_, ?_, ?_, ?_, ?_, ?_⟩
  · intro fs p u s h
    match hf : fs p with
    | none => simp [get_size, hf] at h
    | some content =>
        match hu : UNITS_MAPPING.find? (fun x => x.1 == u) with
        | none => simp [get_size, hf, hu] at h
        | some u1 => simp [get_size, hf, hu]
  · intro fs p s h
    match hf : fs p with
    | none => simp [encode_image_to_base64, hf] at h
    | some content => simp [encode_image_to_base64, hf]
  · intro parse fs p v h
    match hf : fs p with
    | none => simp [read_yaml, hf] at h
    | some text =>
        match hp : parse text with
        | Except.error e => simp [read_yaml, hf, hp] at h
        | Except.ok none =>
            simp [read_yaml, hf, hp, List.countP_cons, List.countP_nil, isInfoLog]
        | Except.ok (some c) =>
            by_cases hd : c.isDict = true <;>
              simp [read_yaml, hf, hp, hd, List.countP_cons, List.countP_nil, isInfoLog]
  · intro fs p d u h
    by_cases hd : d.isDict = true
    · simp [save_json, save_json_body, hd, List.countP_cons, List.countP_nil, isInfoLog]
    · simp at hd
      simp [save_json, hd] at h
  · intro fs p v h
    match hf : fs p with
    | none => simp [load_json, hf] at h
    | some content =>
        by_cases hd : content.isDict = true <;>
          simp [load_json, hf, hd, List.countP_cons, List.countP_nil, isInfoLog]
  · intro α fs x p
    simp [save_bin, List.countP_cons, List.countP_nil, isInfoLog]
  · intro α fs p v h
    match hf : fs p with
    | none => simp [load_bin, hf] at h
    | some content => simp [load_bin, hf, List.countP_cons, List.countP_nil, isInfoLog]
  · intro fs s dst u h
    match hd : b64decode s.toList with
    | none =>
        have hd2 : b64decode s.data = none := hd
        simp [decode_image, hd2] at h
    | some imgdata =>
        have hd2 : b64decode s.data = some imgdata := hd
        simp [decode_image, hd2, List.countP_cons, List.countP_nil, isInfoLog]
  · intro fail st ps h
    induction ps generalizing st with
    | nil => rfl
    | cons q rest ih =>
        have hq : fail q = false := h q (List.mem_cons_self q rest)
        simp [create_directories, hq, List.countP_cons, isInfoLog,
          ih _ (fun p hp => h p (List.mem_cons_of_mem q hp))]

theorem claim_C8_witness :
    ((get_size (fun q => if q = "z.bin" then some [] else none) "z.bin" "KB").2).countP
        isInfoLog = 0
    ∧ ((encode_image_to_base64 (fun q => if q = "z.png" then some [5] else none)
        "z.png").2).countP isInfoLog = 0
    ∧ ((read_yaml (fun _ => Except.ok (some (PyData.pdict [])))
        (fun q => if q = "c.yaml" then some "a: 1" else none) "c.yaml").2).countP isInfoLog = 1
    ∧ ((save_json (fun _ => none) "o.json" (PyData.pdict [])).2.2).countP isInfoLog = 1
    ∧ ((load_json (fun q => if q = "o.json" then some (PyData.pdict []) else none)
        "o.json").2).countP isInfoLog = 1
    ∧ ((save_bin (fun _ => (none : Option Nat)) 3 "b.bin").2.2).countP isInfoLog = 1
    ∧ ((load_bin (fun q => if q = "b.bin" then some 3 else (none : Option Nat))
        "b.bin").2).countP isInfoLog = 1
    ∧ ((decode_image (fun _ => none) (String.mk (b64encode [9])) "d.png").2.2).countP
        isInfoLog = 1
    ∧ ((create_directories (fun _ => false) true (fun _ => false) ["a", "a/b"]).2).countP
        isInfoLog = 2 := by
  obtain ⟨h1, h2, h3, h4, h5, h6, h7, h8, h9⟩ := claim_C8_success_logging
  refine ⟨h1 _ "z.bin" "KB" "~ 0.0 KB" rfl, h2 _ "z.png" (String.mk (b64encode [5])) rfl,
    h3 _ _ "c.yaml" (PyData.pdict []) rfl, h4 _ "o.json" (PyData.pdict []) () rfl,
    h5 _ "o.json" (PyData.pdict []) rfl, h6 Nat _ 3 "b.bin",
    h7 Nat _ "b.bin" 3 rfl, h8 _ (String.mk (b64encode [9])) "d.png" () ?_,
    h9 _ _ ["a", "a/b"] (fun p _ => rfl)⟩
  show (decode_image (fun _ => none) (String.mk (b64encode [9])) "d.png").1 = Except.ok ()
  have hdec : b64decode (b64encode [9]) = some [9] := b64_decode_encode [9] (by decide)
  simp [decode_image, hdec]

/-- C9: for every value and path, save_bin followed by load_bin at the same
path returns a value equal to the original (binary write-then-read is a
value-preserving round trip). -/
theorem claim_C9_bin_roundtrip {α : Type} (fs : String → Option α) (x : α) (p : String) :
    (load_bin ((save_bin fs x p).2.1) p).1 = Except.ok x := by
  simp [save_bin, load_bin, updF]

/-- C10: the hardcoded path list of template.py's main block contains the
single concatenated entry "templates/index.htmlmain.py" caused by the
missing comma between two adjacent string literals, and running
create_files on that list from an empty state creates a file at the
concatenated path while creating neither "main.py" nor
"templates/index.html". -/
theorem claim_C10_concatenated_entry :
    "templates/index.htmlmain.py" ∈ list_of_files
    ∧ "main.py" ∉ list_of_files
    ∧ "templates/index.html" ∉ list_of_files
    ∧ ((create_files (TState.mk (fun _ => none) (fun _ => false)) list_of_files).1).files
        "templates/index.htmlmain.py" = some []
    ∧ ((create_files (TState.mk (fun _ => none) (fun _ => false)) list_of_files).1).files
        "main.py" = none
    ∧ ((create_files (TState.mk (fun _ => none) (fun _ => false)) list_of_files).1).files
        "templates/index.html" = none := by
  have hmem : "templates/index.htmlmain.py" ∈ list_of_files := by decide
  have hnm : "main.py" ∉ list_of_files := by decide
  have hnt : "templates/index.html" ∉ list_of_files := by decide
  refine ⟨hmem, hnm, hnt, ?_, ?_, ?_⟩
  · exact create_files_creates _ list_of_files _ hmem (Or.inl rfl)
  · rw [create_files_untouched _ list_of_files _ (fun p hp hq => hnm (by rwa [hq] at hp))]
  · rw [create_files_untouched _ list_of_files _ (fun p hp hq => hnt (by rwa [hq] at hp))]
